import Mathlib

/-!
Shallow embedding of `src/lib/classes/Repository.ts`: a passthrough CRUD
adapter over a Supabase backend client.  Each of the seven methods awaits
one backend call, inspects the structured `error` field of the response,
wraps it in a thrown `Error` when present, and otherwise returns the data;
a `catch` block logs and rethrows any exception unchanged (logging via
`console.error` is a side effect with no bearing on values and is not
modelled).  JavaScript exceptions are modelled by `JsError`; a backend
call that may itself throw before resolving is an `Except JsError`
value.  `data` fields that may be `null` are `Option`s; the JS value
`undefined` (from indexing past the end of an array) is `none`.
-/

/-- The structured error object carried in a backend response
(`error.message` is the only field the adapter reads). -/
structure PostgrestError where
  message : String

/-- A thrown JavaScript value: `error m` is `new Error(m)` (as thrown by
the wrapping in the adapter), `typeError m` is a runtime `TypeError`
(raised when indexing into a `null` payload; its message text is produced
by the JS engine and varies between engines, so a fixed representative
text is used), `exception i m` is any other thrown object (e.g. a network
exception from the transport), distinguished by an identity tag `i` so
that re-raising "the same object" is expressible. -/
inductive JsError where
  | error (message : String)
  | typeError (message : String)
  | exception (id : Nat) (message : String)

/-- A backend response destructured as `{ data, error }` by the select,
insert and update paths (`data` is `null` or an array of records). -/
structure SelectResponse (Rec : Type) where
  data : Option (List Rec)
  error : Option PostgrestError

/-- A backend response destructured as `{ error }` by the delete path. -/
structure DeleteResponse where
  error : Option PostgrestError

/-- A backend response destructured as `{ count, error }` by the count
path (`count` is a number or `null`). -/
structure CountResponse where
  count : Option Int
  error : Option PostgrestError

/-- The result of awaiting a backend call: either the call itself threw
(transport failure) or it resolved with a structured response. -/
def Resolved (α : Type) : Type := Except JsError α

/-- JavaScript indexing `data[0]` on a `null`-or-array value: on `null`
it throws a `TypeError`; on an array it yields the first element, or
`undefined` (`none`) when the array is empty. -/
def jsIndexZero {Rec : Type} (d : Option (List Rec)) : Resolved (Option Rec) :=
  match d with
  | none => Except.error (JsError.typeError ("Cannot read properties of null (reading 0)"))
  | some l => Except.ok l.head?

/-- The backend client capability (`SupabaseClient`), reduced to the
query shapes the adapter builds: `select()`, `select().eq(id, id)`,
`select().in(id, ids)`, `insert(o)`, `update(o).eq(id, id)`,
`delete().eq(id, id)`, and the head-only exact-count select, each over a
table name supplied through `from(tableName)`. -/
structure SupabaseClient (Rec : Type) where
  selectAll : String → Resolved (SelectResponse Rec)
  selectEqId : String → Int → Resolved (SelectResponse Rec)
  selectInId : String → List Int → Resolved (SelectResponse Rec)
  insertRow : String → Rec → Resolved (SelectResponse Rec)
  updateEqId : String → Rec → Int → Resolved (SelectResponse Rec)
  deleteEqId : String → Int → Resolved DeleteResponse
  selectCount : String → Resolved CountResponse

/-- Body of `GetAll` as a function of the awaited backend call: a thrown
transport error is caught, logged and rethrown unchanged; a structured
error is wrapped as `new Error("Error fetching data: " + message)` (the
throw is itself caught and rethrown by the same catch block); otherwise
`data` is returned. -/
def GetAllBody {Rec : Type} (call : Resolved (SelectResponse Rec)) :
    Resolved (Option (List Rec)) :=
  match call with
  | Except.error e => Except.error e
  | Except.ok resp =>
    match resp.error with
    | some err => Except.error (JsError.error ("Error fetching data: " ++ err.message))
    | none => Except.ok resp.data

/-- Body of `GetById`: wraps a structured error as
`"Error fetching games: " + message`, otherwise returns `data[0]`. -/
def GetByIdBody {Rec : Type} (call : Resolved (SelectResponse Rec)) :
    Resolved (Option Rec) :=
  match call with
  | Except.error e => Except.error e
  | Except.ok resp =>
    match resp.error with
    | some err => Except.error (JsError.error ("Error fetching games: " ++ err.message))
    | none => jsIndexZero resp.data

/-- Body of `GetByIds`: wraps a structured error as
`"Error fetching games: " + message`, otherwise returns `data`. -/
def GetByIdsBody {Rec : Type} (call : Resolved (SelectResponse Rec)) :
    Resolved (Option (List Rec)) :=
  match call with
  | Except.error e => Except.error e
  | Except.ok resp =>
    match resp.error with
    | some err => Except.error (JsError.error ("Error fetching games: " ++ err.message))
    | none => Except.ok resp.data

/-- Body of `Insert`: wraps a structured error as
`"Error inserting data: " + message`, otherwise resolves with no value,
discarding the destructured `data`. -/
def InsertBody {Rec : Type} (call : Resolved (SelectResponse Rec)) :
    Resolved Unit :=
  match call with
  | Except.error e => Except.error e
  | Except.ok resp =>
    match resp.error with
    | some err => Except.error (JsError.error ("Error inserting data: " ++ err.message))
    | none => Except.ok ()

/-- Body of `Update`: wraps a structured error as
`"Error updating data: " + message`, otherwise evaluates `data![0]`
(the non-null assertion `!` is erased at runtime, so this is plain
JavaScript indexing on a possibly `null` payload). -/
def UpdateBody {Rec : Type} (call : Resolved (SelectResponse Rec)) :
    Resolved (Option Rec) :=
  match call with
  | Except.error e => Except.error e
  | Except.ok resp =>
    match resp.error with
    | some err => Except.error (JsError.error ("Error updating data: " ++ err.message))
    | none => jsIndexZero resp.data

/-- Body of `Delete`: wraps a structured error as
`"Error deleting data: " + message`, otherwise resolves with no value. -/
def DeleteBody (call : Resolved DeleteResponse) : Resolved Unit :=
  match call with
  | Except.error e => Except.error e
  | Except.ok resp =>
    match resp.error with
    | some err => Except.error (JsError.error ("Error deleting data: " ++ err.message))
    | none => Except.ok ()

/-- Body of `Count`: wraps a structured error as
`"Error fetching data: " + message`, otherwise returns `count ?? 0`. -/
def CountBody (call : Resolved CountResponse) : Resolved Int :=
  match call with
  | Except.error e => Except.error e
  | Except.ok resp =>
    match resp.error with
    | some err => Except.error (JsError.error ("Error fetching data: " ++ err.message))
    | none => Except.ok (resp.count.getD 0)

/-- The `Repository` class: its two private attributes, both assigned in
the constructor and assigned nowhere else in the source. -/
structure Repository (Rec : Type) where
  _supabaseClient : SupabaseClient Rec
  _tableName : String

namespace Repository

/-- `GetAll()` : build `from(tableName).select()`, await it, run the body. -/
def GetAll {Rec : Type} (r : Repository Rec) : Resolved (Option (List Rec)) :=
  GetAllBody (r._supabaseClient.selectAll r._tableName)

/-- `GetById(id)` : `from(tableName).select().eq(id, id)`. -/
def GetById {Rec : Type} (r : Repository Rec) (id : Int) : Resolved (Option Rec) :=
  GetByIdBody (r._supabaseClient.selectEqId r._tableName id)

/-- `GetByIds(ids)` : `from(tableName).select().in(id, ids)`. -/
def GetByIds {Rec : Type} (r : Repository Rec) (ids : List Int) :
    Resolved (Option (List Rec)) :=
  GetByIdsBody (r._supabaseClient.selectInId r._tableName ids)

/-- `Insert(object)` : `from(tableName).insert(object)`. -/
def Insert {Rec : Type} (r : Repository Rec) (object : Rec) : Resolved Unit :=
  InsertBody (r._supabaseClient.insertRow r._tableName object)

/-- `Update(id, updatedObject)` : `from(tableName).update(updatedObject).eq(id, id)`. -/
def Update {Rec : Type} (r : Repository Rec) (id : Int) (updatedObject : Rec) :
    Resolved (Option Rec) :=
  UpdateBody (r._supabaseClient.updateEqId r._tableName updatedObject id)

/-- `Delete(id)` : `from(tableName).delete().eq(id, id)`. -/
def Delete {Rec : Type} (r : Repository Rec) (id : Int) : Resolved Unit :=
  DeleteBody (r._supabaseClient.deleteEqId r._tableName id)

/-- `Count()` : `from(tableName).head-only exact-count select`. -/
def Count {Rec : Type} (r : Repository Rec) : Resolved Int :=
  CountBody (r._supabaseClient.selectCount r._tableName)

/-- State-passing form of `GetAll`: the method body contains no assignment
to either private attribute, so the threaded instance is returned as it
was received. -/
def GetAllS {Rec : Type} (r : Repository Rec) :
    Resolved (Option (List Rec)) × Repository Rec :=
  (r.GetAll, r)

/-- State-passing form of `GetById` (no assignment to any attribute). -/
def GetByIdS {Rec : Type} (r : Repository Rec) (id : Int) :
    Resolved (Option Rec) × Repository Rec :=
  (r.GetById id, r)

/-- State-passing form of `GetByIds` (no assignment to any attribute). -/
def GetByIdsS {Rec : Type} (r : Repository Rec) (ids : List Int) :
    Resolved (Option (List Rec)) × Repository Rec :=
  (r.GetByIds ids, r)

/-- State-passing form of `Insert` (no assignment to any attribute). -/
def InsertS {Rec : Type} (r : Repository Rec) (object : Rec) :
    Resolved Unit × Repository Rec :=
  (r.Insert object, r)

/-- State-passing form of `Update` (no assignment to any attribute). -/
def UpdateS {Rec : Type} (r : Repository Rec) (id : Int) (updatedObject : Rec) :
    Resolved (Option Rec) × Repository Rec :=
  (r.Update id updatedObject, r)

/-- State-passing form of `Delete` (no assignment to any attribute). -/
def DeleteS {Rec : Type} (r : Repository Rec) (id : Int) :
    Resolved Unit × Repository Rec :=
  (r.Delete id, r)

/-- State-passing form of `Count` (no assignment to any attribute). -/
def CountS {Rec : Type} (r : Repository Rec) :
    Resolved Int × Repository Rec :=
  (r.Count, r)

end Repository

/-- Boolean test that one character list is an initial segment of another. -/
def charsPrefixOf : List Char → List Char → Bool
  | [], _ => true
  | _ :: _, [] => false
  | a :: as, b :: bs => a == b && charsPrefixOf as bs

/-- Boolean test that `needle` occurs as a contiguous run in `hay`. -/
def listContainsRun (needle : List Char) : List Char → Bool
  | [] => needle.isEmpty
  | c :: cs => charsPrefixOf needle (c :: cs) || listContainsRun needle cs

/-- Boolean substring test on strings. -/
def hasSubstr (needle hay : String) : Bool :=
  listContainsRun needle.toList hay.toList

/-- Claim C1 counterexample: a structured backend error on the count path
is wrapped as "Error fetching data: ..." — a message that nowhere
mentions count and coincides exactly with the message GetAll raises for
the same backend error — so the raised error is tagged as a fetch
failure, not to the count operation that failed. -/
theorem count_error_not_tagged_count :
    CountBody (Except.ok ⟨none, some ⟨("boom")⟩⟩)
      = Except.error (JsError.error ("Error fetching data: boom"))
    ∧ hasSubstr ("count") ("Error fetching data: boom") = false
    ∧ GetAllBody (Except.ok (⟨none, some ⟨("boom")⟩⟩ : SelectResponse Unit))
      = Except.error (JsError.error ("Error fetching data: boom")) :=
  ⟨rfl, by decide, rfl⟩

/-- Claim C1 (amended): for every backend response carrying a structured
error, each operation raises an Error whose message is a fixed tag
followed by the backend message — GetAll, GetById, GetByIds tagged as
fetch failures, Insert as inserting, Update as updating, Delete as
deleting, while Count reuses the fetch tag "Error fetching data" rather
than a count-specific tag. -/
theorem all_ops_wrap_backend_error_message (Rec : Type)
    (d : Option (List Rec)) (m : String) (co : Option Int) :
    GetAllBody (Except.ok ⟨d, some ⟨m⟩⟩)
      = Except.error (JsError.error ("Error fetching data: " ++ m))
    ∧ GetByIdBody (Except.ok ⟨d, some ⟨m⟩⟩)
      = Except.error (JsError.error ("Error fetching games: " ++ m))
    ∧ GetByIdsBody (Except.ok ⟨d, some ⟨m⟩⟩)
      = Except.error (JsError.error ("Error fetching games: " ++ m))
    ∧ InsertBody (Except.ok ⟨d, some ⟨m⟩⟩)
      = Except.error (JsError.error ("Error inserting data: " ++ m))
    ∧ UpdateBody (Except.ok ⟨d, some ⟨m⟩⟩)
      = Except.error (JsError.error ("Error updating data: " ++ m))
    ∧ DeleteBody (Except.ok ⟨some ⟨m⟩⟩)
      = Except.error (JsError.error ("Error deleting data: " ++ m))
    ∧ CountBody (Except.ok ⟨co, some ⟨m⟩⟩)
      = Except.error (JsError.error ("Error fetching data: " ++ m)) :=
  ⟨rfl, rfl, rfl, rfl, rfl, rfl, rfl⟩

/-- Claim C2: for every select response of the form
{ data: null, error: { message: m } }, GetAll raises an Error whose
message is exactly "Error fetching data: " followed by m; at
m = "relation not found" the raised message is (and hence contains)
"Error fetching data: relation not found". -/
theorem getAll_wraps_fetch_error_with_backend_message (Rec : Type) (m : String) :
    GetAllBody (Except.ok (⟨none, some ⟨m⟩⟩ : SelectResponse Rec))
      = Except.error (JsError.error ("Error fetching data: " ++ m))
    ∧ GetAllBody (Except.ok (⟨none, some ⟨("relation not found")⟩⟩ : SelectResponse Rec))
      = Except.error (JsError.error ("Error fetching data: relation not found"))
    ∧ hasSubstr ("Error fetching data: relation not found")
        ("Error fetching data: relation not found") = true :=
  ⟨rfl, rfl, by decide⟩

/-- Claim C3: for every operation, when the awaited backend call itself
throws a value e before returning a structured response, the catch block
re-raises exactly e, unchanged and unwrapped; in particular Delete
re-raises the original network exception object. -/
theorem transport_error_reraised_unchanged (Rec : Type) (e : JsError) :
    GetAllBody (Except.error e : Resolved (SelectResponse Rec)) = Except.error e
    ∧ GetByIdBody (Except.error e : Resolved (SelectResponse Rec)) = Except.error e
    ∧ GetByIdsBody (Except.error e : Resolved (SelectResponse Rec)) = Except.error e
    ∧ InsertBody (Except.error e : Resolved (SelectResponse Rec)) = Except.error e
    ∧ UpdateBody (Except.error e : Resolved (SelectResponse Rec)) = Except.error e
    ∧ DeleteBody (Except.error e) = Except.error e
    ∧ CountBody (Except.error e) = Except.error e
    ∧ DeleteBody (Except.error (JsError.exception 7 ("ECONNRESET")))
      = Except.error (JsError.exception 7 ("ECONNRESET")) :=
  ⟨rfl, rfl, rfl, rfl, rfl, rfl, rfl, rfl⟩

/-- Claim C4: when the backend select-by-id call succeeds with data list
l and no error, GetById returns the head of l — the first record when l
is nonempty, and undefined (none) rather than raising when l is empty. -/
theorem getById_returns_first_or_undefined (Rec : Type)
    (x : Rec) (xs l : List Rec) :
    GetByIdBody (Except.ok ⟨some (x :: xs), none⟩) = Except.ok (some x)
    ∧ GetByIdBody (Except.ok ⟨some ([] : List Rec), none⟩) = Except.ok none
    ∧ GetByIdBody (Except.ok ⟨some l, none⟩) = Except.ok l.head? :=
  ⟨rfl, rfl, rfl⟩

/-- Claim C5: when the backend call succeeds (no structured error),
GetByIds returns the data payload the backend produced, never raising;
in particular a backend result set that is the empty array — as for an
empty id set or a set of absent ids — comes back as the empty sequence. -/
theorem getByIds_returns_backend_sequence (Rec : Type)
    (d : Option (List Rec)) (l : List Rec) :
    GetByIdsBody (Except.ok ⟨d, none⟩) = Except.ok d
    ∧ GetByIdsBody (Except.ok ⟨some l, none⟩) = Except.ok (some l)
    ∧ GetByIdsBody (Except.ok ⟨some ([] : List Rec), none⟩) = Except.ok (some []) :=
  ⟨rfl, rfl, rfl⟩

/-- Claim C6: evaluation of Update at the failing input. When the backend
supplies a returned-rows array l, Update returns its first element (head
of l, undefined when empty); but when the backend reports success with a
null data payload — its default when no returned representation was
requested — Update evaluates data![0] on null and throws a TypeError
instead of resolving void as its own JSDoc (@returns Promise<void>)
states. -/
theorem update_null_payload_evaluation (Rec : Type) (l : List Rec) :
    UpdateBody (Except.ok ⟨some l, none⟩) = Except.ok l.head?
    ∧ UpdateBody (Except.ok (⟨none, none⟩ : SelectResponse Rec))
      = Except.error (JsError.typeError ("Cannot read properties of null (reading 0)")) :=
  ⟨rfl, rfl⟩

/-- Claim C7: when the count query completes without a structured error,
Count returns count ?? 0 — the backend count when present, 0 when the
count field is null. -/
theorem count_returns_backend_count_or_zero (co : Option Int) :
    CountBody (Except.ok ⟨co, none⟩) = Except.ok (co.getD 0)
    ∧ CountBody (Except.ok ⟨none, none⟩) = Except.ok 0
    ∧ ∀ n : Int, CountBody (Except.ok ⟨some n, none⟩) = Except.ok n :=
  ⟨rfl, rfl, fun _ => rfl⟩

/-- Claim C8: when the insert call completes without a structured error,
Insert resolves with no value, whatever data payload the backend
returned. -/
theorem insert_resolves_void_discarding_data (Rec : Type)
    (d : Option (List Rec)) :
    InsertBody (Except.ok ⟨d, none⟩) = Except.ok () :=
  rfl

/-- Claim C9: the constructor stores the backend client and table name
verbatim, and each of the seven operations, threaded in state-passing
form, returns the Repository instance exactly as it received it — no
operation mutates either attribute. -/
theorem repository_fields_fixed_and_unmutated (Rec : Type)
    (c : SupabaseClient Rec) (t : String) (r : Repository Rec)
    (id : Int) (ids : List Int) (o u : Rec) :
    (Repository.mk c t)._supabaseClient = c
    ∧ (Repository.mk c t)._tableName = t
    ∧ (r.GetAllS).2 = r
    ∧ (r.GetByIdS id).2 = r
    ∧ (r.GetByIdsS ids).2 = r
    ∧ (r.InsertS o).2 = r
    ∧ (r.UpdateS id u).2 = r
    ∧ (r.DeleteS id).2 = r
    ∧ (r.CountS).2 = r :=
  ⟨rfl, rfl, rfl, rfl, rfl, rfl, rfl, rfl, rfl⟩

/-- Claim C10: when the backend update call succeeds but carries a null
data payload, Update does not resolve with any value: evaluating
data![0] on null throws a runtime TypeError, so the result is an error
and equals Except.ok v for no v. -/
theorem update_null_data_throws_despite_success (Rec : Type) :
    UpdateBody (Except.ok (⟨none, none⟩ : SelectResponse Rec))
      = Except.error (JsError.typeError ("Cannot read properties of null (reading 0)"))
    ∧ ∀ v : Option Rec,
        UpdateBody (Except.ok (⟨none, none⟩ : SelectResponse Rec)) ≠ Except.ok v :=
  ⟨rfl, fun _ h => Except.noConfusion h⟩
